import Mathlib

/-!
Verification development for the myscrollr fantasy-sync service.

The Python source is shallowly embedded:
  - byte strings are `List Nat` with every element `< 256`;
  - Python strings are Lean `String` (credential plaintexts are modelled at
    the UTF-8 byte level, since `str.encode` / `bytes.decode` are inverse);
  - the dynamically typed yahoofantasy object graph is the inductive `PyVal`;
  - the AES-256-GCM primitive (`cryptography.hazmat` `AESGCM`) is an external
    library, modelled as an abstract authenticated cipher `AEAD` whose
    contract (tag appending, authenticated round trip) appears as explicit
    hypotheses of the theorems that need it;
  - base64 (Python `base64.b64encode` / `b64decode`) is embedded concretely
    on byte lists, with the round-trip proved below;
  - Postgres tables are association lists and each SQL upsert from
    `database.py` becomes a pure state transformer on a `DB` record;
  - the Yahoo API client and failure injection for DB calls live in an
    explicit environment `Env`; a raised-and-not-caught Python exception is
    an early return with completion flag `false`.
-/

set_option autoImplicit false

/-! ## Base64 (model of `base64.b64encode` / `base64.b64decode` on bytes) -/

/-- Character (ASCII code) of a base64 sextet, standard alphabet. -/
def b64char (s : Nat) : Nat :=
  if s < 26 then 65 + s
  else if s < 52 then 97 + (s - 26)
  else if s < 62 then 48 + (s - 52)
  else if s = 62 then 43
  else 47

/-- Sextet value of a base64 alphabet character (ASCII code). -/
def b64val (c : Nat) : Nat :=
  if 65 ≤ c ∧ c ≤ 90 then c - 65
  else if 97 ≤ c ∧ c ≤ 122 then 26 + (c - 97)
  else if 48 ≤ c ∧ c ≤ 57 then 52 + (c - 48)
  else if c = 43 then 62
  else 63

/-- Standard base64 encoding of a byte list, with `=` (ASCII 61) padding. -/
def b64encode : List Nat → List Nat
  | [] => []
  | [a] => [b64char (a / 4), b64char ((a % 4) * 16), 61, 61]
  | [a, b] => [b64char (a / 4), b64char ((a % 4) * 16 + b / 16),
               b64char ((b % 16) * 4), 61]
  | a :: b :: c :: rest =>
      b64char (a / 4) :: b64char ((a % 4) * 16 + b / 16) ::
      b64char ((b % 16) * 4 + c / 64) :: b64char (c % 64) :: b64encode rest

/-- Base64 decoding of a well-formed padded base64 character list. -/
def b64decode : List Nat → List Nat
  | c1 :: c2 :: c3 :: c4 :: rest =>
      if c3 = 61 then
        [b64val c1 * 4 + b64val c2 / 16]
      else if c4 = 61 then
        [b64val c1 * 4 + b64val c2 / 16,
         b64val c2 % 16 * 16 + b64val c3 / 4]
      else
        (b64val c1 * 4 + b64val c2 / 16) ::
        (b64val c2 % 16 * 16 + b64val c3 / 4) ::
        (b64val c3 % 4 * 64 + b64val c4) :: b64decode rest
  | _ => []

theorem b64val_b64char {s : Nat} (h : s < 64) : b64val (b64char s) = s := by
  revert h
  have : ∀ s < 64, b64val (b64char s) = s := by decide
  exact this s

theorem b64char_ne_pad {s : Nat} (h : s < 64) : b64char s ≠ 61 := by
  revert h
  have : ∀ s < 64, b64char s ≠ 61 := by decide
  exact this s

theorem b64decode_cons4 (c1 c2 c3 c4 : Nat) (rest : List Nat) :
    b64decode (c1 :: c2 :: c3 :: c4 :: rest) =
      if c3 = 61 then
        [b64val c1 * 4 + b64val c2 / 16]
      else if c4 = 61 then
        [b64val c1 * 4 + b64val c2 / 16,
         b64val c2 % 16 * 16 + b64val c3 / 4]
      else
        (b64val c1 * 4 + b64val c2 / 16) ::
        (b64val c2 % 16 * 16 + b64val c3 / 4) ::
        (b64val c3 % 4 * 64 + b64val c4) :: b64decode rest := rfl

/-- Round trip of the base64 model on byte lists. -/
theorem b64decode_b64encode :
    ∀ l : List Nat, (∀ b ∈ l, b < 256) → b64decode (b64encode l) = l
  | [], _ => rfl
  | [a], h => by
    have ha : a < 256 := h a (by simp)
    rw [show b64encode [a] = [b64char (a / 4), b64char (a % 4 * 16), 61, 61]
          from rfl,
        b64decode_cons4, if_pos rfl,
        b64val_b64char (by omega), b64val_b64char (by omega)]
    simp only [List.cons.injEq, and_true]
    omega
  | [a, b], h => by
    have ha : a < 256 := h a (by simp)
    have hb : b < 256 := h b (by simp)
    rw [show b64encode [a, b] = [b64char (a / 4), b64char (a % 4 * 16 + b / 16),
          b64char (b % 16 * 4), 61] from rfl,
        b64decode_cons4, if_neg (b64char_ne_pad (by omega)), if_pos rfl,
        b64val_b64char (by omega), b64val_b64char (by omega),
        b64val_b64char (by omega)]
    simp only [List.cons.injEq, and_true]
    omega
  | a :: b :: c :: rest, h => by
    have ha : a < 256 := h a (by simp)
    have hb : b < 256 := h b (by simp)
    have hc : c < 256 := h c (by simp)
    have ih := b64decode_b64encode rest (fun x hx => h x (by simp [hx]))
    rw [show b64encode (a :: b :: c :: rest) =
          b64char (a / 4) :: b64char (a % 4 * 16 + b / 16) ::
          b64char (b % 16 * 4 + c / 64) :: b64char (c % 64) :: b64encode rest
          from rfl,
        b64decode_cons4,
        if_neg (b64char_ne_pad (by omega)), if_neg (b64char_ne_pad (by omega)),
        b64val_b64char (by omega), b64val_b64char (by omega),
        b64val_b64char (by omega), b64val_b64char (by omega), ih]
    simp only [List.cons.injEq, and_true]
    omega

/-! ## Credential codec (`encryption.py`)

`AESGCM` from the `cryptography` library is external to the repository; it is
modelled as an abstract authenticated cipher.  `enc nonce pt` returns
ciphertext with the 16-byte tag appended (as `AESGCM.encrypt` does) and
`dec nonce ct` returns `some` plaintext when the tag verifies, `none` when it
does not (the library raises `InvalidTag`). -/

structure AEAD where
  enc : List Nat → List Nat → List Nat
  dec : List Nat → List Nat → Option (List Nat)

/-- GCM standard nonce size from `encryption.py`. -/
def NONCE_SIZE : Nat := 12

/-- Embedding of `encrypt` (encryption.py lines 39-50): assemble
`nonce || ciphertext || tag` and base64-encode.  The random 12-byte nonce
from `os.urandom` is an explicit argument. -/
def encrypt (a : AEAD) (nonce plaintext : List Nat) : List Nat :=
  let ct_with_tag := a.enc nonce plaintext
  let combined := nonce ++ ct_with_tag
  b64encode combined

/-- The two failure modes of `decrypt`: the explicit
`ValueError("Encrypted data too short")` and the library's `InvalidTag`. -/
inductive DecryptError where
  | tooShort
  | invalidTag
  deriving DecidableEq

/-- Embedding of `decrypt` (encryption.py lines 53-66): base64-decode, check
the length against the nonce size, split at 12 bytes, and authenticate.
UTF-8 decoding of the plaintext is elided (plaintexts are byte lists). -/
def decrypt (a : AEAD) (encrypted : List Nat) : Except DecryptError (List Nat) :=
  let raw := b64decode encrypted
  if raw.length < NONCE_SIZE then .error .tooShort
  else
    let nonce := raw.take NONCE_SIZE
    let ct_with_tag := raw.drop NONCE_SIZE
    match a.dec nonce ct_with_tag with
    | some pt => .ok pt
    | none => .error .invalidTag

/-! ## Dynamically typed yahoofantasy values

`PyVal` models the Python values the serializers traverse: `None`, bools,
ints, floats (as rationals), strings, lists and attribute-bearing objects.
`getattr(obj, attr, None)` cannot distinguish an absent attribute from one
stored as `None`; `getattrD` makes the same identification.  `hasattr` can
distinguish them, hence `getattrRaw` / `hasattrP`. -/

inductive PyVal where
  | none
  | bool (b : Bool)
  | int (n : Int)
  | float (q : Rat)
  | str (s : String)
  | list (xs : List PyVal)
  | obj (fields : List (String × PyVal))

/-- Raw attribute lookup: `some v` iff the attribute is present (its value
may itself be the Python `None`). -/
def getattrRaw (obj : PyVal) (attr : String) : Option PyVal :=
  match obj with
  | .obj fields => fields.lookup attr
  | _ => Option.none

/-- `getattr(obj, attr, None)`: absent and `None`-valued coincide. -/
def getattrD (obj : PyVal) (attr : String) : PyVal :=
  (getattrRaw obj attr).getD .none

/-- `hasattr(obj, attr)`. -/
def hasattrP (obj : PyVal) (attr : String) : Bool :=
  (getattrRaw obj attr).isSome

/-- Python truthiness. -/
def pyTruthy : PyVal → Bool
  | .none => false
  | .bool b => b
  | .int n => decide (n ≠ 0)
  | .float q => decide (q ≠ 0)
  | .str s => decide (s ≠ "")
  | .list xs => !xs.isEmpty
  | .obj _ => true

/-- `str(v)`.  Rendering of floats, lists and objects is a model choice; no
verified property depends on it. -/
def pyStr : PyVal → String
  | .none => "None"
  | .bool b => if b then "True" else "False"
  | .int n => toString n
  | .float q => toString q
  | .str s => s
  | .list _ => "[...]"
  | .obj _ => "<object>"

/-- `int(v)`: `some` on success, `none` where Python raises
`ValueError`/`TypeError` (None, lists, objects, unparsable strings).
Floats truncate toward zero. -/
def pyToInt : PyVal → Option Int
  | .bool b => some (if b then 1 else 0)
  | .int n => some n
  | .float q => some (q.num / (q.den : Int))
  | .str s => s.trim.toInt?
  | _ => Option.none

/-- Helper for `float(string)`: digits to a natural number, `none` when the
character list is empty or contains a non-digit. -/
def digitsToNat : List Char → Option Nat
  | [] => Option.none
  | cs => if cs.all Char.isDigit
          then some (cs.foldl (fun a c => a * 10 + (c.toNat - 48)) 0)
          else Option.none

/-- `float(string)` on decimal literals `[+-]digits[.digits]`; other forms
(exponents, inf, nan) are modelled as parse failures.  No verified property
depends on the numeric value, only on success versus failure shape. -/
def strToRat : String → Option Rat := fun s =>
  let cs := s.trim.toList
  let signed : Bool × List Char :=
    match cs with
    | '-' :: r => (true, r)
    | '+' :: r => (false, r)
    | _ => (false, cs)
  let ip := signed.2.takeWhile Char.isDigit
  let rest := signed.2.dropWhile Char.isDigit
  let mag : Option Rat :=
    match rest with
    | [] => (digitsToNat ip).map (fun n => (n : Rat))
    | '.' :: fr =>
        if ip.isEmpty ∧ fr.isEmpty then Option.none
        else if fr.all Char.isDigit then
          some ((ip.foldl (fun a c => a * 10 + (c.toNat - 48)) 0 : Rat) +
                (fr.foldl (fun a c => a * 10 + (c.toNat - 48)) 0 : Rat) /
                ((10 : Rat) ^ fr.length))
        else Option.none
    | _ => Option.none
  mag.map (fun q => if signed.1 then -q else q)

/-- `float(v)`: `some` on success, `none` where Python raises. -/
def pyToFloat : PyVal → Option Rat
  | .bool b => some (if b then 1 else 0)
  | .int n => some (n : Rat)
  | .float q => some q
  | .str s => strToRat s
  | _ => Option.none

/-! ## Defensive extractor primitives (serializers.py lines 26-110) -/

/-- Embedding of `_safe_str` (serializers.py lines 26-31). -/
def _safe_str (obj : PyVal) (attr : String) (default : String := "") : String :=
  match getattrD obj attr with
  | .none => default
  | v => pyStr v

/-- Embedding of `_safe_int` (serializers.py lines 34-42). -/
def _safe_int (obj : PyVal) (attr : String) (default : Int := 0) : Int :=
  match getattrD obj attr with
  | .none => default
  | v => (pyToInt v).getD default

/-- Embedding of `_safe_optional_int` (serializers.py lines 45-53). -/
def _safe_optional_int (obj : PyVal) (attr : String) : Option Int :=
  match getattrD obj attr with
  | .none => Option.none
  | v => pyToInt v

/-- Embedding of `_safe_float` (serializers.py lines 56-64). -/
def _safe_float (obj : PyVal) (attr : String) (default : Rat := 0) : Rat :=
  match getattrD obj attr with
  | .none => default
  | v => (pyToFloat v).getD default

/-- Embedding of `_safe_optional_float` (serializers.py lines 67-75). -/
def _safe_optional_float (obj : PyVal) (attr : String) : Option Rat :=
  match getattrD obj attr with
  | .none => Option.none
  | v => pyToFloat v

/-- Embedding of `_safe_optional_str` (serializers.py lines 78-83). -/
def _safe_optional_str (obj : PyVal) (attr : String) : Option String :=
  match getattrD obj attr with
  | .none => Option.none
  | v => some (pyStr v)

/-- Embedding of `_as_list` (serializers.py lines 104-110). -/
def _as_list : PyVal → List PyVal
  | .none => []
  | .list xs => xs
  | v => [v]

/-- Embedding of `_extract_team_logo` (serializers.py lines 86-101). -/
def _extract_team_logo (team : PyVal) : String :=
  let logos := getattrD team "team_logos"
  let fromLogos : Option String :=
    if pyTruthy logos then
      let logo_list := getattrD logos "team_logo"
      match logo_list with
      | .list (l0 :: _) => some (_safe_str l0 "url")
      | ll =>
        if pyTruthy ll ∧ hasattrP ll "url" then some (_safe_str ll "url")
        else Option.none
    else Option.none
  match fromLogos with
  | some s => s
  | Option.none => _safe_str team "team_logo" ""

/-! ## League record (serializers.py lines 117-182) -/

structure LeagueRec where
  league_key : String
  league_id : Int
  name : String
  url : String
  logo_url : String
  draft_status : String
  num_teams : Int
  scoring_type : String
  league_type : String
  current_week : Option Int
  start_week : Option Int
  end_week : Option Int
  is_finished : Bool
  season : Int
  game_code : String
  deriving DecidableEq

/-- Embedding of `_compute_is_finished` (serializers.py lines 162-182).
`datetime.now().year` is the explicit `currentYear` argument. -/
def _compute_is_finished (league : PyVal) (season : Int) (currentYear : Int) : Bool :=
  match getattrD league "is_finished" with
  | .none => decide (season < currentYear - 1)
  | raw =>
    match pyToInt raw with
    | some val => decide (val = 1)
    | Option.none => decide (season < currentYear - 1)

/-- Embedding of `serialize_league` (serializers.py lines 117-159). -/
def serialize_league (league : PyVal) (game_code : String) (currentYear : Int) :
    LeagueRec :=
  let season := _safe_int league "season" 0
  { league_key := _safe_str league "league_key"
    league_id := _safe_int league "league_id"
    name := _safe_str league "name"
    url := _safe_str league "url"
    logo_url := _safe_str league "logo_url"
    draft_status := _safe_str league "draft_status"
    num_teams := _safe_int league "num_teams"
    scoring_type := _safe_str league "scoring_type"
    league_type := _safe_str league "league_type"
    current_week := _safe_optional_int league "current_week"
    start_week := _safe_optional_int league "start_week"
    end_week := _safe_optional_int league "end_week"
    is_finished := _compute_is_finished league season currentYear
    season := season
    game_code := game_code }

/-! ## Standings records (serializers.py lines 192-307) -/

structure StandingRec where
  team_key : String
  team_id : Int
  name : String
  url : String
  team_logo : String
  manager_name : String
  rank : Option Int
  wins : Int
  losses : Int
  ties : Int
  percentage : String
  games_back : String
  points_for : String
  points_against : String
  streak_type : String
  streak_value : Int
  playoff_seed : Option Int
  clinched_playoffs : Bool
  waiver_priority : Option Int
  deriving DecidableEq

/-- Embedding of `_extract_manager_name` (serializers.py lines 281-307). -/
def _extract_manager_name (team : PyVal) : String :=
  let mgr := getattrD team "manager"
  if pyTruthy mgr ∧ hasattrP mgr "nickname" then _safe_str mgr "nickname"
  else
    match getattrD team "managers" with
    | .none => ""
    | managers_obj =>
      match getattrD managers_obj "manager" with
      | .none => ""
      | mgr_list =>
        match _as_list mgr_list with
        | m0 :: _ => _safe_str m0 "nickname"
        | [] => ""

/-- Embedding of the per-team body of `serialize_standings`
(serializers.py lines 224-276). -/
def _serialize_standing_team (team : PyVal) : StandingRec :=
  let ts := getattrD team "team_standings"
  let ot := if pyTruthy ts then getattrD ts "outcome_totals" else PyVal.none
  let streak := if pyTruthy ts then getattrD ts "streak" else PyVal.none
  let wins := if pyTruthy ot then _safe_int ot "wins" else 0
  let losses := if pyTruthy ot then _safe_int ot "losses" else 0
  let ties := if pyTruthy ot then _safe_int ot "ties" else 0
  let percentage := if pyTruthy ot then _safe_str ot "percentage" "0.0" else "0.0"
  let games_back := if pyTruthy ts then _safe_str ts "games_back" "0.0" else "0.0"
  let points_for := if pyTruthy ts then _safe_str ts "points_for" "0" else "0"
  let points_against := if pyTruthy ts then _safe_str ts "points_against" "0" else "0"
  let rank := if pyTruthy ts then _safe_optional_int ts "rank" else Option.none
  let playoff_seed := if pyTruthy ts then _safe_optional_int ts "playoff_seed" else Option.none
  let streak_type := if pyTruthy streak then _safe_str streak "type" else ""
  let streak_value := if pyTruthy streak then _safe_int streak "value" else 0
  let clinched_raw := _safe_optional_str team "clinched_playoffs"
  let clinched :=
    match clinched_raw with
    | some s => if s ≠ "" then decide (s = "1") else false
    | Option.none => false
  { team_key := _safe_str team "team_key"
    team_id := _safe_int team "team_id"
    name := _safe_str team "name"
    url := _safe_str team "url"
    team_logo := _extract_team_logo team
    manager_name := _extract_manager_name team
    rank := rank
    wins := wins
    losses := losses
    ties := ties
    percentage := percentage
    games_back := games_back
    points_for := points_for
    points_against := points_against
    streak_type := streak_type
    streak_value := streak_value
    playoff_seed := playoff_seed
    clinched_playoffs := clinched
    waiver_priority := _safe_optional_int team "waiver_priority" }

/-- Embedding of `serialize_standings` (serializers.py lines 192-278).
`league.standings()` may return `None` (then the result is empty). -/
def serialize_standings (standings_list : Option (List PyVal)) : List StandingRec :=
  match standings_list with
  | Option.none => []
  | some l => l.map _serialize_standing_team

/-! ## Matchup records (serializers.py lines 317-426) -/

structure MatchupTeamRec where
  team_key : String
  team_id : Int
  name : String
  team_logo : String
  manager_name : String
  points : Option Rat
  projected_points : Option Rat
  deriving DecidableEq

structure MatchupRec where
  week : Int
  week_start : String
  week_end : String
  status : String
  is_playoffs : Bool
  is_consolation : Bool
  is_tied : Bool
  winner_team_key : Option String
  teams : List MatchupTeamRec
  deriving DecidableEq

/-- Embedding of `_extract_matchup_teams` (serializers.py lines 388-400):
team entries may arrive as a wrapped list, a wrapped single object, a bare
list, or be absent. -/
def _extract_matchup_teams (matchup : PyVal) : List PyVal :=
  match getattrD matchup "teams" with
  | .none => []
  | teams_obj =>
    match getattrD teams_obj "team" with
    | .none =>
      match teams_obj with
      | .list xs => xs
      | _ => []
    | .list xs => xs
    | v => [v]

/-- Embedding of `_serialize_matchup_team` (serializers.py lines 403-426). -/
def _serialize_matchup_team (team : PyVal) : MatchupTeamRec :=
  let tp := getattrD team "team_points"
  let points := if pyTruthy tp then _safe_optional_float tp "total" else Option.none
  let tpp := getattrD team "team_projected_points"
  let projected := if pyTruthy tpp then _safe_optional_float tpp "total" else Option.none
  { team_key := _safe_str team "team_key"
    team_id := _safe_int team "team_id"
    name := _safe_str team "name"
    team_logo := _extract_team_logo team
    manager_name := _extract_manager_name team
    points := points
    projected_points := projected }

/-- Embedding of the loop body of `serialize_week_matchups`
(serializers.py lines 356-375): one serialized matchup dict. -/
def _serialize_one_matchup (matchup : PyVal) : MatchupRec :=
  { week := _safe_int matchup "week"
    week_start := _safe_str matchup "week_start"
    week_end := _safe_str matchup "week_end"
    status := _safe_str matchup "status"
    is_playoffs := _safe_str matchup "is_playoffs" "0" = "1"
    is_consolation := _safe_str matchup "is_consolation" "0" = "1"
    is_tied := _safe_str matchup "is_tied" "0" = "1"
    winner_team_key := _safe_optional_str matchup "winner_team_key"
    teams := (_extract_matchup_teams matchup).map _serialize_matchup_team }

/-- The matchup list of a week object (serializers.py lines 348-351). -/
def _matchups_list (week_obj : PyVal) : List PyVal :=
  let matchups_raw :=
    match getattrD week_obj "matchups" with
    | .none => getattrD week_obj "matchup"
    | v => v
  _as_list matchups_raw

/-- Embedding of `serialize_week_matchups` (serializers.py lines 317-385):
the fold keeps the last positive per-matchup week as the loop does, the
`week_num` attribute of the week object overrides it when coercible. -/
def serialize_week_matchups (week_obj : PyVal) : Int × List MatchupRec :=
  let step := fun (acc : Int × List MatchupRec) (matchup : PyVal) =>
    let week_val := _safe_int matchup "week"
    let week_num := if week_val > 0 then week_val else acc.1
    (week_num, acc.2 ++ [_serialize_one_matchup matchup])
  let folded := (_matchups_list week_obj).foldl step (0, [])
  match getattrD week_obj "week_num" with
  | .none => folded
  | wk =>
    match pyToInt wk with
    | some n => (n, folded.2)
    | Option.none => folded

/-! ## Roster records (serializers.py lines 436-546) -/

structure PlayerName where
  full : String
  first : String
  last : String
  deriving DecidableEq

structure PlayerRec where
  player_key : String
  player_id : Int
  name : PlayerName
  editorial_team_abbr : String
  editorial_team_full_name : String
  display_position : String
  selected_position : String
  eligible_positions : List String
  image_url : String
  position_type : String
  status : Option String
  status_full : Option String
  injury_note : Option String
  player_points : Option Rat
  deriving DecidableEq

structure RosterRec where
  team_key : String
  team_name : String
  players : List PlayerRec
  deriving DecidableEq

/-- Embedding of `_get_player_list` (serializers.py lines 528-546). -/
def _get_player_list (roster : PyVal) : List PyVal :=
  match roster with
  | .none => []
  | _ =>
    match getattrD roster "players" with
    | .none => []
    | .list ps => ps
    | players_obj =>
      if hasattrP players_obj "player" then
        _as_list ((getattrRaw players_obj "player").getD .none)
      else []

/-- Embedding of the per-player body of `serialize_roster`
(serializers.py lines 467-519). -/
def _serialize_player (player : PyVal) : PlayerRec :=
  let name_obj := getattrD player "name"
  let name : PlayerName :=
    { full := if pyTruthy name_obj then _safe_str name_obj "full"
              else _safe_str player "name"
      first := if pyTruthy name_obj then _safe_str name_obj "first" else ""
      last := if pyTruthy name_obj then _safe_str name_obj "last" else "" }
  let sp_obj := getattrD player "selected_position"
  let selected_pos :=
    if pyTruthy sp_obj ∧ hasattrP sp_obj "position" then _safe_str sp_obj "position"
    else _safe_str player "selected_position"
  let ep_obj := getattrD player "eligible_positions"
  let eligible_pos : List String :=
    if pyTruthy ep_obj ∧ hasattrP ep_obj "position" then
      match (getattrRaw ep_obj "position").getD .none with
      | .list raw => raw.map pyStr
      | raw => [pyStr raw]
    else []
  let pp_obj := getattrD player "player_points"
  let player_points :=
    if pyTruthy pp_obj then _safe_optional_float pp_obj "total" else Option.none
  { player_key := _safe_str player "player_key"
    player_id := _safe_int player "player_id"
    name := name
    editorial_team_abbr := _safe_str player "editorial_team_abbr"
    editorial_team_full_name := _safe_str player "editorial_team_full_name"
    display_position := _safe_str player "display_position"
    selected_position := selected_pos
    eligible_positions := eligible_pos
    image_url := _safe_str player "image_url"
    position_type := _safe_str player "position_type"
    status := _safe_optional_str player "status"
    status_full := _safe_optional_str player "status_full"
    injury_note := _safe_optional_str player "injury_note"
    player_points := player_points }

/-- Embedding of `serialize_roster` (serializers.py lines 436-525). -/
def serialize_roster (roster : PyVal) (team_key : String := "")
    (team_name : String := "") : RosterRec :=
  { team_key := team_key
    team_name := team_name
    players := (_get_player_list roster).map _serialize_player }

/-! ## Database state (database.py)

Each Postgres table is an association list keyed by its primary key; each
upsert helper of `database.py` becomes a pure state transformer.  `upsertBy`
is `INSERT ... ON CONFLICT (key) DO UPDATE`: insert when the key is absent,
apply the conflict-update to the stored row when present. -/

def upsertBy {α β : Type} [DecidableEq α] :
    List (α × β) → α → β → (β → β) → List (α × β)
  | [], k, ins, _ => [(k, ins)]
  | (k0, v) :: rest, k, ins, upd =>
    if k0 = k then (k0, upd v) :: rest
    else (k0, v) :: upsertBy rest k ins upd

def lookupA {α β : Type} [DecidableEq α] : List (α × β) → α → Option β
  | [], _ => Option.none
  | (k0, v) :: rest, k => if k0 = k then some v else lookupA rest k

/-- `UPDATE ... WHERE key = k`: update the stored row when present. -/
def updateA {α β : Type} [DecidableEq α] :
    List (α × β) → α → (β → β) → List (α × β)
  | [], _, _ => []
  | (k0, v) :: rest, k, f =>
    if k0 = k then (k0, f v) :: rest else (k0, v) :: updateA rest k f

/-- A `yahoo_users` row.  The refresh token is stored encrypted in Postgres;
the codec being verified separately, the row keeps the token payload. -/
structure UserRow where
  logto_sub : Option String
  refresh_token : String
  last_sync : Option Int
  deriving DecidableEq

/-- A `yahoo_leagues` row. -/
structure LeagueRow where
  guid : String
  name : String
  game_code : String
  season : String
  data : LeagueRec
  deriving DecidableEq

/-- A `yahoo_user_leagues` row (besides its key). -/
structure MembershipRow where
  team_key : Option String
  team_name : Option String
  deriving DecidableEq

/-- A `yahoo_rosters` row (besides its key): league_key and data. -/
structure RosterRow where
  league_key : String
  data : RosterRec
  deriving DecidableEq

/-- The persistent state: one field per table of `database.py`. -/
structure DB where
  users : List (String × UserRow)
  leagues : List (String × LeagueRow)
  userLeagues : List ((String × String) × MembershipRow)
  standings : List (String × List StandingRec)
  matchups : List ((String × Int) × List MatchupRec)
  rosters : List (String × RosterRow)
  deriving DecidableEq

/-- Embedding of `upsert_yahoo_user` (database.py lines 272-292): on
conflict, `logto_sub` and `refresh_token` are replaced, `last_sync` kept. -/
def upsert_yahoo_user (db : DB) (guid : String) (logto_sub : Option String)
    (refresh_token : String) : DB :=
  { db with users := (upsertBy db.users guid
      ⟨logto_sub, refresh_token, Option.none⟩
      (fun old => ⟨logto_sub, refresh_token, old.last_sync⟩)) }

/-- Embedding of `upsert_yahoo_league` (database.py lines 295-321): on
conflict only `name` and `data` are replaced (`guid`, `game_code`, `season`
keep their stored values, exactly as the SQL does). -/
def upsert_yahoo_league (db : DB) (guid league_key name game_code season : String)
    (data : LeagueRec) : DB :=
  { db with leagues := (upsertBy db.leagues league_key
      ⟨guid, name, game_code, season, data⟩
      (fun old => { old with name := name, data := data })) }

/-- Embedding of `upsert_yahoo_standings` (database.py lines 324-341): full
replace of the league's standings set. -/
def upsert_yahoo_standings (db : DB) (league_key : String)
    (data : List StandingRec) : DB :=
  { db with standings := upsertBy db.standings league_key data (fun _ => data) }

/-- Embedding of `upsert_yahoo_matchups` (database.py lines 344-363): full
replace keyed by (league_key, week). -/
def upsert_yahoo_matchups (db : DB) (league_key : String) (week : Int)
    (data : List MatchupRec) : DB :=
  { db with matchups :=
      upsertBy db.matchups (league_key, week) data (fun _ => data) }

/-- Embedding of `upsert_yahoo_roster` (database.py lines 366-385): on
conflict only `data` is replaced (the stored `league_key` is kept, as the
SQL only sets `data`). -/
def upsert_yahoo_roster (db : DB) (team_key league_key : String)
    (data : RosterRec) : DB :=
  { db with rosters := (upsertBy db.rosters team_key
      ⟨league_key, data⟩ (fun old => { old with data := data })) }

/-- Embedding of `upsert_yahoo_user_league` (database.py lines 388-409): on
conflict `team_key` and `team_name` are `COALESCE(EXCLUDED.x, stored.x)` —
an absent incoming value keeps the stored one. -/
def upsert_yahoo_user_league (db : DB) (guid league_key : String)
    (team_key : Option String := Option.none)
    (team_name : Option String := Option.none) : DB :=
  { db with userLeagues := (upsertBy db.userLeagues (guid, league_key)
      ⟨team_key, team_name⟩
      (fun old =>
        ⟨match team_key with | some v => some v | Option.none => old.team_key,
         match team_name with | some v => some v | Option.none => old.team_name⟩)) }

/-- Embedding of `update_user_sync_time` (database.py lines 412-418):
`UPDATE yahoo_users SET last_sync = CURRENT_TIMESTAMP WHERE guid = $1`;
the clock is the explicit `now` argument. -/
def update_user_sync_time (db : DB) (guid : String) (now : Int) : DB :=
  { db with users := updateA db.users guid (fun u => { u with last_sync := some now }) }

/-! ## External environment for one sync pass (sync.py)

`Env` packages the Yahoo client calls made during one pass (each may raise:
`Except.error ()`) and success/failure of each database call (a `false`
flag means the awaited `asyncpg` execute raises).  Throttling sleeps are
irrelevant to state and elided. -/

structure Env where
  getLeagues : String → Int → Except Unit (List PyVal)
  teamsCall : PyVal → Except Unit (List PyVal)
  standingsCall : PyVal → Except Unit (Option (List PyVal))
  scoreboard : PyVal → Int → Except Unit (Option PyVal)
  weeksCall : PyVal → Except Unit (List PyVal)
  rosterCall : PyVal → Except Unit PyVal
  newRefreshToken : Option String
  leagueOk : String → Bool
  userLeagueOk : String → Bool
  standingsOk : String → Bool
  matchupsOk : String → Int → Bool
  rosterOk : String → Bool
  userOk : Bool
  syncTimeOk : Bool

/-- `getattr(league_obj, "league_key", "")`, used as a string key
(sync.py lines 143, 160, 204, 354, 433). -/
def _league_key_attr (lo : PyVal) : String :=
  match getattrD lo "league_key" with
  | .none => ""
  | v => pyStr v

/-- `getattr(team_obj, "team_key", "")` (sync.py lines 209, 433). -/
def _team_key_attr (t : PyVal) : String :=
  match getattrD t "team_key" with
  | .none => ""
  | v => pyStr v

/-- `x or None` on a string. -/
def strOrNone (s : String) : Option String :=
  if s = "" then Option.none else some s

/-- Manager-guid match in `_find_user_team` (sync.py lines 493-499). -/
def mgrMatch (mgrs : List PyVal) (guid : String) : Bool :=
  mgrs.any fun mgr =>
    match getattrD mgr "guid" with
    | .none => false
    | g => pyTruthy g && pyStr g == guid

/-- Team-scanning loop of `_find_user_team` (sync.py lines 481-501). -/
def findTeamLoop : List PyVal → String → Option String × Option String
  | [], _ => (Option.none, Option.none)
  | team :: rest, guid =>
    let managers :=
      match getattrD team "managers" with
      | .none => getattrD team "manager"
      | v => v
    match managers with
    | .none => findTeamLoop rest guid
    | m =>
      let mgr_list := _as_list
        (if hasattrP m "manager" then (getattrRaw m "manager").getD m else m)
      if mgrMatch mgr_list guid then
        (strOrNone (_safe_str team "team_key"), strOrNone (_safe_str team "name"))
      else findTeamLoop rest guid

/-- Embedding of `_find_user_team` (sync.py lines 468-501). -/
def _find_user_team (env : Env) (league : PyVal) (guid : String) :
    Option String × Option String :=
  match env.teamsCall league with
  | .error _ => (Option.none, Option.none)
  | .ok teams =>
    if teams.isEmpty then (Option.none, Option.none)
    else findTeamLoop teams guid

/-- Embedding of `_get_all_teams` (sync.py lines 504-510). -/
def _get_all_teams (env : Env) (league : PyVal) : List PyVal :=
  match env.teamsCall league with
  | .error _ => []
  | .ok teams => teams

/-- Week-scanning fallback of `_get_week` (sync.py lines 532-540): an
uncoercible `week_num` raises inside the `try`, so the whole fallback
yields `None`. -/
def _find_week : List PyVal → Int → Option PyVal
  | [], _ => Option.none
  | w :: rest, week_num =>
    match getattrD w "week_num" with
    | .none => _find_week rest week_num
    | v =>
      match pyToInt v with
      | Option.none => Option.none
      | some n => if n = week_num then some w else _find_week rest week_num

/-- Embedding of `_get_week` (sync.py lines 513-542): scoreboard fast path,
then the all-weeks fallback; every failure is caught and yields `None`. -/
def _get_week (env : Env) (league : PyVal) (week_num : Int) : Option PyVal :=
  match env.scoreboard league week_num with
  | .ok (some sb) => some sb
  | _ =>
    match env.weeksCall league with
    | .error _ => Option.none
    | .ok weeks => _find_week weeks week_num

/-- The week window of the matchup step (sync.py lines 169-172 and 400-402):
`current_week` plus, when `current_week > 1`, the previous week. -/
def weeksToSync (current_week : Int) : List Int :=
  [current_week] ++ (if current_week > 1 then [current_week - 1] else [])

/-- One iteration of the week loop (sync.py lines 174-195 / 404-425): fetch
the week, serialize, fall back to the requested number when the serialized
week is non-positive, and upsert only a non-empty matchup list.  A failing
upsert is caught by the inner `try`. -/
def syncWeek (env : Env) (lk : String) (lo : PyVal) (db : DB) (week_num : Int) : DB :=
  match _get_week env lo week_num with
  | Option.none => db
  | some week_obj =>
    let r := serialize_week_matchups week_obj
    let wk := if r.1 ≤ 0 then week_num else r.1
    if r.2.isEmpty then db
    else if env.matchupsOk lk wk then upsert_yahoo_matchups db lk wk r.2
    else db

/-- Embedding of the per-league matchup block, shared verbatim between
`sync_user` (sync.py lines 163-195) and `import_single_league` (sync.py
lines 397-425).  Returns the updated state and the list of weeks for which
`_get_week` was invoked (the fetch log). -/
def matchupLeague (env : Env) (lk : String) (lo : PyVal) (db : DB) :
    DB × List Int :=
  let current_week := _safe_int lo "current_week" 0
  if current_week ≤ 0 then (db, [])
  else
    let ws := weeksToSync current_week
    (ws.foldl (fun db wn => syncWeek env lk lo db wn) db, ws)

/-- Embedding of the per-league standings block, shared between `sync_user`
(sync.py lines 142-152) and `import_single_league` (sync.py lines 385-394):
call, serialize, upsert; any failure inside the `try` leaves the state
unchanged. -/
def standingsLeague (env : Env) (lk : String) (lo : PyVal) (db : DB) : DB :=
  match env.standingsCall lo with
  | .error _ => db
  | .ok objs =>
    let data := serialize_standings objs
    if env.standingsOk lk then upsert_yahoo_standings db lk data else db

/-- Step 4 of `sync_user` (sync.py lines 142-152): standings for every
active league, failures isolated per league. -/
def standingsStep (env : Env) (active : List (PyVal × String)) (db : DB) : DB :=
  active.foldl (fun db p => standingsLeague env (_league_key_attr p.1) p.1 db) db

/-- Step 5 of `sync_user` (sync.py lines 159-197). -/
def matchupStep (env : Env) (active : List (PyVal × String)) (db : DB) : DB :=
  active.foldl (fun db p => (matchupLeague env (_league_key_attr p.1) p.1 db).1) db

/-- Per-team body of the roster loop (sync.py lines 208-223 / 432-446). -/
def rosterTeam (env : Env) (lk : String) (db : DB) (t : PyVal) : DB :=
  let tk := _team_key_attr t
  let tn := _safe_str t "name"
  match env.rosterCall t with
  | .error _ => db
  | .ok roster_obj =>
    let data := serialize_roster roster_obj tk tn
    if env.rosterOk tk then upsert_yahoo_roster db tk lk data else db

/-- Per-league roster block, shared between `sync_user` (sync.py lines
203-225) and `import_single_league` (sync.py lines 429-448). -/
def rosterLeague (env : Env) (lk : String) (lo : PyVal) (db : DB) : DB :=
  (_get_all_teams env lo).foldl (rosterTeam env lk) db

/-- Step 6 of `sync_user` (sync.py lines 203-225). -/
def rosterStep (env : Env) (active : List (PyVal × String)) (db : DB) : DB :=
  active.foldl (fun db p => rosterLeague env (_league_key_attr p.1) p.1 db) db

/-- The supported game codes (sync.py line 40). -/
def GAME_CODES : List String := ["nfl", "nba", "nhl", "mlb"]

/-- Step 1 of `sync_user` (sync.py lines 84-101): all game codes for the
current and previous season; one failing combination is skipped. -/
def discoverStep (env : Env) (currentYear : Int) : List (PyVal × String) :=
  (GAME_CODES.map fun game_code =>
    ([currentYear, currentYear - 1].map fun season =>
      match env.getLeagues game_code season with
      | .ok leagues => leagues.map (fun l => (l, game_code))
      | .error _ => []).flatten).flatten

/-- Step 2 of `sync_user` (sync.py lines 106-126): upsert league metadata
and membership for every discovered league.  These awaits are not inside a
`try`, so a failing database call aborts the whole pass: the flag is
`false` and the remaining steps never run. -/
def upsertLeaguesStep (env : Env) (guid : String) (currentYear : Int) :
    List (PyVal × String) → DB → DB × Bool
  | [], db => (db, true)
  | (lo, game_code) :: rest, db =>
    let league_data := serialize_league lo game_code currentYear
    let league_key := league_data.league_key
    if env.leagueOk league_key then
      let db := upsert_yahoo_league db guid league_key league_data.name
        game_code (toString league_data.season) league_data
      let tt := _find_user_team env lo guid
      if env.userLeagueOk league_key then
        upsertLeaguesStep env guid currentYear rest
          (upsert_yahoo_user_league db guid league_key tt.1 tt.2)
      else (db, false)
    else (db, false)

/-- Step 7 of `sync_user` (sync.py lines 230-233) and the same block of
`import_single_league` (lines 453-456): persist a refreshed token.  The
upsert is not inside a `try`: failure aborts the pass. -/
def tokenStep (env : Env) (guid : String) (logto_sub : Option String)
    (refresh_token : String) (db : DB) : DB × Bool :=
  match env.newRefreshToken with
  | Option.none => (db, true)
  | some new_refresh =>
    if new_refresh ≠ "" ∧ new_refresh ≠ refresh_token then
      if env.userOk then (upsert_yahoo_user db guid logto_sub new_refresh, true)
      else (db, false)
    else (db, true)

/-- Embedding of `sync_user` (sync.py lines 50-239), the per-principal
workflow: discover, upsert leagues and memberships, filter active leagues,
standings, windowed matchups, rosters, token capture, watermark.  The
returned flag is `true` iff no uncaught exception aborted the pass; the
watermark write (`update_user_sync_time`) runs last. -/
def sync_user (env : Env) (guid : String) (logto_sub : Option String)
    (refresh_token : String) (currentYear now : Int) (db : DB) : DB × Bool :=
  let all_leagues := discoverStep env currentYear
  let step2 := upsertLeaguesStep env guid currentYear all_leagues db
  if step2.2 then
    let active := all_leagues.filter
      (fun p => !(serialize_league p.1 p.2 currentYear).is_finished)
    let db2 := standingsStep env active step2.1
    let db3 := matchupStep env active db2
    let db4 := rosterStep env active db3
    let step7 := tokenStep env guid logto_sub refresh_token db4
    if step7.2 then
      if env.syncTimeOk then (update_user_sync_time step7.1 guid now, true)
      else (step7.1, false)
    else step7
  else step2

/-- Embedding of `import_single_league` (sync.py lines 322-461): fetch one
league by key, persist metadata and membership, and for an active league
run the same standings / windowed-matchup / roster blocks, then token
capture and watermark.  Uncaught failures abort with flag `false`. -/
def import_single_league (env : Env) (guid : String) (logto_sub : Option String)
    (refresh_token : String) (currentYear now : Int)
    (league_key game_code : String) (season : Int) (db : DB) : DB × Bool :=
  match env.getLeagues game_code season with
  | .error _ => (db, false)
  | .ok leagues =>
    match leagues.find? (fun l => _league_key_attr l == league_key) with
    | Option.none => (db, false)
    | some target_league =>
      let league_data := serialize_league target_league game_code currentYear
      if env.leagueOk league_key then
        let db1 := upsert_yahoo_league db guid league_key league_data.name
          game_code (toString league_data.season) league_data
        let tt := _find_user_team env target_league guid
        if env.userLeagueOk league_key then
          let db2 := upsert_yahoo_user_league db1 guid league_key tt.1 tt.2
          let db3 :=
            if !league_data.is_finished then
              let dbS := standingsLeague env league_key target_league db2
              let dbM := (matchupLeague env league_key target_league dbS).1
              rosterLeague env league_key target_league dbM
            else db2
          let step7 := tokenStep env guid logto_sub refresh_token db3
          if step7.2 then
            if env.syncTimeOk then (update_user_sync_time step7.1 guid now, true)
            else (step7.1, false)
          else step7
        else (db1, false)
      else (db, false)

/-! ## Association-list lemmas -/

theorem lookupA_upsertBy_self {α β : Type} [DecidableEq α]
    (l : List (α × β)) (k : α) (ins : β) (upd : β → β) :
    lookupA (upsertBy l k ins upd) k =
      some (match lookupA l k with | some v => upd v | Option.none => ins) := by
  induction l with
  | nil => simp [upsertBy, lookupA]
  | cons hd tl ih =>
    obtain ⟨k0, v⟩ := hd
    by_cases hk : k0 = k
    · subst hk; simp [upsertBy, lookupA]
    · simp [upsertBy, lookupA, hk, ih]

theorem lookupA_upsertBy_ne {α β : Type} [DecidableEq α]
    (l : List (α × β)) (k k2 : α) (ins : β) (upd : β → β) (h : k2 ≠ k) :
    lookupA (upsertBy l k ins upd) k2 = lookupA l k2 := by
  induction l with
  | nil => simp [upsertBy, lookupA, Ne.symm h]
  | cons hd tl ih =>
    obtain ⟨k0, v⟩ := hd
    by_cases hk : k0 = k
    · subst hk; simp [upsertBy, lookupA, Ne.symm h]
    · simp [upsertBy, lookupA, hk, ih]

theorem lookupA_updateA_self {α β : Type} [DecidableEq α]
    (l : List (α × β)) (k : α) (f : β → β) :
    lookupA (updateA l k f) k = (lookupA l k).map f := by
  induction l with
  | nil => simp [updateA, lookupA]
  | cons hd tl ih =>
    obtain ⟨k0, v⟩ := hd
    by_cases hk : k0 = k
    · subst hk; simp [updateA, lookupA]
    · simp [updateA, lookupA, hk, ih]

/-- Characterization of `decrypt` used by the codec claims. -/
theorem decrypt_eq (a : AEAD) (s : List Nat) :
    decrypt a s =
      if (b64decode s).length < NONCE_SIZE then .error .tooShort
      else
        match a.dec ((b64decode s).take NONCE_SIZE)
                    ((b64decode s).drop NONCE_SIZE) with
        | some pt => .ok pt
        | Option.none => .error .invalidTag := rfl

/-- Claim C1: for every plaintext, decrypting the result of `encrypt` under
the same key returns the plaintext; the base64-decoded output of `encrypt`
has length plaintext + 28 (hence at least 28, also for the empty string) and
is laid out as nonce, then ciphertext, then tag.  The hypotheses are the
contract of the external AESGCM primitive at the used nonce/plaintext: the
nonce is the 12 bytes of `os.urandom(12)`, `AESGCM.encrypt` appends a
16-byte tag and returns bytes, and `AESGCM.decrypt` inverts it. -/
theorem encrypt_decrypt_roundtrip (a : AEAD) (nonce pt : List Nat)
    (hn : nonce.length = 12)
    (hnb : ∀ b ∈ nonce, b < 256)
    (hcb : ∀ b ∈ a.enc nonce pt, b < 256)
    (hlen : (a.enc nonce pt).length = pt.length + 16)
    (hdec : a.dec nonce (a.enc nonce pt) = some pt) :
    decrypt a (encrypt a nonce pt) = .ok pt ∧
    (b64decode (encrypt a nonce pt)).length = pt.length + 28 ∧
    28 ≤ (b64decode (encrypt a nonce pt)).length ∧
    b64decode (encrypt a nonce pt) = nonce ++ a.enc nonce pt := by
  have hbytes : ∀ b ∈ nonce ++ a.enc nonce pt, b < 256 := by
    intro b hb
    rcases List.mem_append.mp hb with h | h
    · exact hnb b h
    · exact hcb b h
  have hdecoded : b64decode (encrypt a nonce pt) = nonce ++ a.enc nonce pt :=
    b64decode_b64encode _ hbytes
  have hlen2 : (b64decode (encrypt a nonce pt)).length = pt.length + 28 := by
    rw [hdecoded, List.length_append, hn, hlen]; omega
  refine ⟨?_, hlen2, by omega, hdecoded⟩
  rw [decrypt_eq, if_neg (by simp only [NONCE_SIZE]; omega), hdecoded,
      List.take_left' (by rw [hn, NONCE_SIZE] : nonce.length = NONCE_SIZE),
      List.drop_left' (by rw [hn, NONCE_SIZE] : nonce.length = NONCE_SIZE), hdec]

/-- Witness for C1 on a lawful concrete cipher, a zero nonce and the empty
plaintext: the round trip succeeds and the decoded wire is exactly the
28-byte minimum. -/
def toyAEAD : AEAD where
  enc := fun _ p => p ++ List.replicate 16 0
  dec := fun _ c =>
    if 16 ≤ c.length ∧ c.drop (c.length - 16) = List.replicate 16 0
    then some (c.take (c.length - 16))
    else Option.none

theorem encrypt_decrypt_roundtrip_witness :
    ((List.replicate 12 0 : List Nat).length = 12 ∧
     (∀ b ∈ (List.replicate 12 0 : List Nat), b < 256) ∧
     (∀ b ∈ toyAEAD.enc (List.replicate 12 0) ([] : List Nat), b < 256) ∧
     (toyAEAD.enc (List.replicate 12 0) ([] : List Nat)).length = ([] : List Nat).length + 16 ∧
     toyAEAD.dec (List.replicate 12 0) (toyAEAD.enc (List.replicate 12 0) ([] : List Nat)) = some ([] : List Nat)) ∧
    (decrypt toyAEAD (encrypt toyAEAD (List.replicate 12 0) ([] : List Nat)) = .ok ([] : List Nat) ∧
     (b64decode (encrypt toyAEAD (List.replicate 12 0) ([] : List Nat))).length = ([] : List Nat).length + 28 ∧
     28 ≤ (b64decode (encrypt toyAEAD (List.replicate 12 0) [])).length ∧
     b64decode (encrypt toyAEAD (List.replicate 12 0) ([] : List Nat)) =
       List.replicate 12 0 ++ toyAEAD.enc (List.replicate 12 0) ([] : List Nat)) :=
  ⟨⟨by decide, by decide, by decide, by decide, by decide⟩,
   encrypt_decrypt_roundtrip toyAEAD (List.replicate 12 0) ([] : List Nat)
     (by decide) (by decide) (by decide) (by decide) (by decide)⟩

/-- Claim C9: `decrypt` splits its base64-decoded input as first 12 bytes of
nonce and remainder of ciphertext+tag; it errors exactly when the input is
shorter than the nonce size or the tag fails to verify, and returns the
plaintext on every well-formed input.  `raw` ranges over all byte strings
presented as base64 input. -/
theorem decrypt_split_spec (a : AEAD) (raw : List Nat)
    (hb : ∀ b ∈ raw, b < 256) :
    (raw.length < 12 → decrypt a (b64encode raw) = .error .tooShort) ∧
    (12 ≤ raw.length → a.dec (raw.take 12) (raw.drop 12) = Option.none →
      decrypt a (b64encode raw) = .error .invalidTag) ∧
    (∀ pt, 12 ≤ raw.length → a.dec (raw.take 12) (raw.drop 12) = some pt →
      decrypt a (b64encode raw) = .ok pt) := by
  have hrt : b64decode (b64encode raw) = raw := b64decode_b64encode raw hb
  refine ⟨fun hshort => ?_, fun hlong hnone => ?_, fun pt hlong hsome => ?_⟩
  · rw [decrypt_eq, hrt, if_pos (by simpa [NONCE_SIZE] using hshort)]
  · rw [decrypt_eq, hrt, if_neg (by simp [NONCE_SIZE]; omega)]
    simp only [NONCE_SIZE, hnone]
  · rw [decrypt_eq, hrt, if_neg (by simp [NONCE_SIZE]; omega)]
    simp only [NONCE_SIZE, hsome]

/-- Witness for C9: an 11-byte input is rejected as too short, and a
well-formed 28-byte toy ciphertext decrypts. -/
theorem decrypt_split_spec_witness :
    ((∀ b ∈ (List.replicate 11 0 : List Nat), b < 256) ∧
     (List.replicate 11 0 : List Nat).length < 12 ∧
     decrypt toyAEAD (b64encode (List.replicate 11 0)) = .error .tooShort) ∧
    ((∀ b ∈ (List.replicate 28 0 : List Nat), b < 256) ∧
     12 ≤ (List.replicate 28 0 : List Nat).length ∧
     toyAEAD.dec ((List.replicate 28 0 : List Nat).take 12)
       ((List.replicate 28 0 : List Nat).drop 12) = some [] ∧
     decrypt toyAEAD (b64encode (List.replicate 28 0)) = .ok []) :=
  ⟨⟨by decide, by decide,
    (decrypt_split_spec toyAEAD (List.replicate 11 0) (by decide)).1 (by decide)⟩,
   ⟨by decide, by decide, by decide,
    (decrypt_split_spec toyAEAD (List.replicate 28 0) (by decide)).2.2 []
      (by decide) (by decide)⟩⟩

/-- Claim C5: a membership upsert with an absent `team_key` never overwrites
a stored non-null `team_key` for the same (guid, league_key) pair, and the
same holds for `team_name`; a present incoming value does replace the
stored one. -/
theorem membership_upsert_keeps_team (db : DB) (guid league_key : String)
    (team_key team_name : Option String) (old : MembershipRow)
    (hold : lookupA db.userLeagues (guid, league_key) = some old) :
    lookupA (upsert_yahoo_user_league db guid league_key team_key team_name).userLeagues
        (guid, league_key) =
      some ⟨match team_key with | some v => some v | Option.none => old.team_key,
            match team_name with | some v => some v | Option.none => old.team_name⟩ := by
  unfold upsert_yahoo_user_league
  simp only
  rw [lookupA_upsertBy_self, hold]
  rfl

/-- Witness for C5: an upsert carrying no team fields keeps the stored
team_key "t.1" and name "Alpha". -/
theorem membership_upsert_keeps_team_witness :
    lookupA (upsert_yahoo_user_league
        ⟨[], [], [(("u", "L1"), ⟨some "t.1", some "Alpha"⟩)], [], [], []⟩
        "u" "L1" Option.none Option.none).userLeagues ("u", "L1") =
      some ⟨some "t.1", some "Alpha"⟩ :=
  membership_upsert_keeps_team
    ⟨[], [], [(("u", "L1"), ⟨some "t.1", some "Alpha"⟩)], [], [], []⟩
    "u" "L1" Option.none Option.none ⟨some "t.1", some "Alpha"⟩ rfl

/-- Claim C2 (amended): `is_finished` is true iff the explicit flag coerces
to the integer 1; when the flag is absent or its integer coercion fails,
it is true iff `season < currentYear - 1`; when the flag coerces to an
integer other than 1, it is false.  (The original claim said a present but
uncoercible flag yields false; the code falls back to the season test.) -/
theorem is_finished_amended (league : PyVal) (season currentYear : Int) :
    _compute_is_finished league season currentYear = true ↔
      (pyToInt (getattrD league "is_finished") = some 1 ∨
       (pyToInt (getattrD league "is_finished") = Option.none ∧
        season < currentYear - 1)) := by
  unfold _compute_is_finished
  cases hv : getattrD league "is_finished" with
  | none => rw [show pyToInt PyVal.none = Option.none from rfl]; simp
  | bool b => rcases hi : pyToInt (PyVal.bool b) with _ | n <;> simp [hi]
  | int n => rcases hi : pyToInt (PyVal.int n) with _ | m <;> simp [hi]
  | float q => rcases hi : pyToInt (PyVal.float q) with _ | m <;> simp [hi]
  | str s => rcases hi : pyToInt (PyVal.str s) with _ | m <;> simp [hi]
  | list xs => rcases hi : pyToInt (PyVal.list xs) with _ | m <;> simp [hi]
  | obj fs => rcases hi : pyToInt (PyVal.obj fs) with _ | m <;> simp [hi]

/-- The original wording of claim C2 as a predicate: true iff the flag
coerces to 1, else true iff the flag is absent and the season is old;
in particular a present, uncoercible flag would force false. -/
def is_finished_claimed (league : PyVal) (season currentYear : Int) : Prop :=
  _compute_is_finished league season currentYear = true ↔
    (pyToInt (getattrD league "is_finished") = some 1 ∨
     (getattrD league "is_finished" = PyVal.none ∧ season < currentYear - 1))

/-- Counterexample for C2 as stated: a league whose `is_finished` flag is
present but uncoercible (a list, on which Python `int()` raises), with
season 0 and current year 2026.  The code returns true via the season
fallback where the claim demands false. -/
theorem is_finished_claim_false :
    ¬ is_finished_claimed (PyVal.obj [("is_finished", PyVal.list [])]) 0 2026 := by
  intro h
  have h1 : _compute_is_finished
      (PyVal.obj [("is_finished", PyVal.list [])]) 0 2026 = true := rfl
  rcases h.mp h1 with h2 | ⟨h2, _⟩
  · rw [show pyToInt (getattrD (PyVal.obj [("is_finished", PyVal.list [])])
        "is_finished") = Option.none from rfl] at h2
    exact Option.noConfusion h2
  · rw [show getattrD (PyVal.obj [("is_finished", PyVal.list [])])
        "is_finished" = PyVal.list [] from rfl] at h2
    exact PyVal.noConfusion h2

/-- Claim C3: in the per-principal matchup step the weeks fetched for a
league (the `_get_week` log of `matchupLeague`) are exactly
`[current_week, current_week - 1]` when `current_week > 1`, exactly
`[current_week]` when it is 1, and none at all — the league is skipped with
the state untouched — when `current_week` is non-positive or unknown
(`_safe_int` then yields its default 0). -/
theorem matchup_week_window (env : Env) (lk : String) (lo : PyVal) (db : DB) :
    (_safe_int lo "current_week" 0 ≤ 0 →
      matchupLeague env lk lo db = (db, [])) ∧
    (_safe_int lo "current_week" 0 = 1 →
      (matchupLeague env lk lo db).2 = [1]) ∧
    (1 < _safe_int lo "current_week" 0 →
      (matchupLeague env lk lo db).2 =
        [_safe_int lo "current_week" 0, _safe_int lo "current_week" 0 - 1]) := by
  refine ⟨fun h => ?_, fun h => ?_, fun h => ?_⟩
  · unfold matchupLeague
    rw [if_pos h]
  · unfold matchupLeague
    rw [if_neg (by omega)]
    simp only [h, weeksToSync]
    norm_num
  · unfold matchupLeague
    rw [if_neg (by omega)]
    simp only [weeksToSync]
    rw [if_pos h]
    rfl

/-- Witness for C3 on leagues with current_week 5, 1, 0 (absent). -/
theorem matchup_week_window_witness :
    (_safe_int (PyVal.obj [("current_week", PyVal.int 5)]) "current_week" 0 > 1 ∧
     (matchupLeague
        ⟨fun _ _ => .error (), fun _ => .error (), fun _ => .error (),
         fun _ _ => .error (), fun _ => .error (), fun _ => .error (),
         Option.none, fun _ => true, fun _ => true, fun _ => true,
         fun _ _ => true, fun _ => true, true, true⟩
        "L" (PyVal.obj [("current_week", PyVal.int 5)])
        ⟨[], [], [], [], [], []⟩).2 = [5, 4]) ∧
    (matchupLeague
        ⟨fun _ _ => .error (), fun _ => .error (), fun _ => .error (),
         fun _ _ => .error (), fun _ => .error (), fun _ => .error (),
         Option.none, fun _ => true, fun _ => true, fun _ => true,
         fun _ _ => true, fun _ => true, true, true⟩
        "L" (PyVal.obj [("current_week", PyVal.int 1)])
        ⟨[], [], [], [], [], []⟩).2 = [1] ∧
    matchupLeague
        ⟨fun _ _ => .error (), fun _ => .error (), fun _ => .error (),
         fun _ _ => .error (), fun _ => .error (), fun _ => .error (),
         Option.none, fun _ => true, fun _ => true, fun _ => true,
         fun _ _ => true, fun _ => true, true, true⟩
        "L" (PyVal.obj []) ⟨[], [], [], [], [], []⟩ = (⟨[], [], [], [], [], []⟩, []) :=
  ⟨⟨by decide,
    (matchup_week_window _ "L" (PyVal.obj [("current_week", PyVal.int 5)])
      ⟨[], [], [], [], [], []⟩).2.2 (by decide)⟩,
   (matchup_week_window _ "L" (PyVal.obj [("current_week", PyVal.int 1)])
      ⟨[], [], [], [], [], []⟩).2.1 (by decide),
   (matchup_week_window _ "L" (PyVal.obj [])
      ⟨[], [], [], [], [], []⟩).1 (by decide)⟩

/-- Claim C4: each extractor primitive is total by construction (a Lean
function cannot raise), returns its declared default or `none` when the
queried attribute is absent or `None`, and returns the default or `none`
when the numeric coercion of a present value fails. -/
theorem extractor_defaults (obj : PyVal) (attr : String)
    (ds : String) (di : Int) (df : Rat) :
    (getattrD obj attr = PyVal.none →
      _safe_str obj attr ds = ds ∧
      _safe_int obj attr di = di ∧
      _safe_optional_int obj attr = Option.none ∧
      _safe_float obj attr df = df ∧
      _safe_optional_float obj attr = Option.none ∧
      _safe_optional_str obj attr = Option.none) ∧
    (∀ v, getattrD obj attr = v → v ≠ PyVal.none → pyToInt v = Option.none →
      _safe_int obj attr di = di ∧ _safe_optional_int obj attr = Option.none) ∧
    (∀ v, getattrD obj attr = v → v ≠ PyVal.none → pyToFloat v = Option.none →
      _safe_float obj attr df = df ∧ _safe_optional_float obj attr = Option.none) := by
  refine ⟨fun h => ?_, fun v hv hne hc => ?_, fun v hv hne hc => ?_⟩
  · unfold _safe_str _safe_int _safe_optional_int _safe_float
      _safe_optional_float _safe_optional_str
    rw [h]
    exact ⟨rfl, rfl, rfl, rfl, rfl, rfl⟩
  · unfold _safe_int _safe_optional_int
    rw [hv]
    cases v with
    | none => exact absurd rfl hne
    | bool b => simp [hc]
    | int n => simp [hc]
    | float q => simp [hc]
    | str s => simp [hc]
    | list xs => simp [hc]
    | obj fs => simp [hc]
  · unfold _safe_float _safe_optional_float
    rw [hv]
    cases v with
    | none => exact absurd rfl hne
    | bool b => simp [hc]
    | int n => simp [hc]
    | float q => simp [hc]
    | str s => simp [hc]
    | list xs => simp [hc]
    | obj fs => simp [hc]

/-- Witness for C4: an object with no `wins` attribute yields every default,
and a list-valued `wins` (uncoercible) yields the numeric defaults. -/
theorem extractor_defaults_witness :
    (_safe_str (PyVal.obj []) "wins" "d" = "d" ∧
     _safe_int (PyVal.obj []) "wins" 7 = 7 ∧
     _safe_optional_int (PyVal.obj []) "wins" = Option.none ∧
     _safe_float (PyVal.obj []) "wins" 3 = 3 ∧
     _safe_optional_float (PyVal.obj []) "wins" = Option.none ∧
     _safe_optional_str (PyVal.obj []) "wins" = Option.none) ∧
    (_safe_int (PyVal.obj [("wins", PyVal.list [])]) "wins" 7 = 7 ∧
     _safe_optional_int (PyVal.obj [("wins", PyVal.list [])]) "wins" = Option.none) ∧
    (_safe_float (PyVal.obj [("wins", PyVal.list [])]) "wins" 3 = 3 ∧
     _safe_optional_float (PyVal.obj [("wins", PyVal.list [])]) "wins" = Option.none) :=
  ⟨(extractor_defaults (PyVal.obj []) "wins" "d" 7 3).1 rfl,
   (extractor_defaults (PyVal.obj [("wins", PyVal.list [])]) "wins" "d" 7 3).2.1
     (PyVal.list []) rfl (fun h => PyVal.noConfusion h) rfl,
   (extractor_defaults (PyVal.obj [("wins", PyVal.list [])]) "wins" "d" 7 3).2.2
     (PyVal.list []) rfl (fun h => PyVal.noConfusion h) rfl⟩

theorem matchups_foldl_snd (l : List PyVal) (acc : Int × List MatchupRec) :
    (l.foldl (fun (acc : Int × List MatchupRec) (matchup : PyVal) =>
      let week_val := _safe_int matchup "week"
      let week_num := if week_val > 0 then week_val else acc.1
      (week_num, acc.2 ++ [_serialize_one_matchup matchup])) acc).2 =
    acc.2 ++ l.map _serialize_one_matchup := by
  induction l generalizing acc with
  | nil => simp
  | cons hd tl ih => simp [ih]

theorem serialize_week_matchups_snd (w : PyVal) :
    (serialize_week_matchups w).2 =
      (_matchups_list w).map _serialize_one_matchup := by
  unfold serialize_week_matchups
  cases hv : getattrD w "week_num" with
  | none => simpa using matchups_foldl_snd (_matchups_list w) (0, [])
  | bool b =>
    rcases hi : pyToInt (PyVal.bool b) with _ | n <;>
      simp [hi] <;> simpa using matchups_foldl_snd (_matchups_list w) (0, [])
  | int n =>
    rcases hi : pyToInt (PyVal.int n) with _ | m <;>
      simp [hi] <;> simpa using matchups_foldl_snd (_matchups_list w) (0, [])
  | float q =>
    rcases hi : pyToInt (PyVal.float q) with _ | m <;>
      simp [hi] <;> simpa using matchups_foldl_snd (_matchups_list w) (0, [])
  | str s =>
    rcases hi : pyToInt (PyVal.str s) with _ | m <;>
      simp [hi] <;> simpa using matchups_foldl_snd (_matchups_list w) (0, [])
  | list xs =>
    rcases hi : pyToInt (PyVal.list xs) with _ | m <;>
      simp [hi] <;> simpa using matchups_foldl_snd (_matchups_list w) (0, [])
  | obj fs =>
    rcases hi : pyToInt (PyVal.obj fs) with _ | m <;>
      simp [hi] <;> simpa using matchups_foldl_snd (_matchups_list w) (0, [])

/-- Claim C8: a serialized week carries one record per source matchup and
each record's `teams` list has exactly one entry per team extracted from
that matchup (whatever the nesting shape `_extract_matchup_teams` resolved);
a team whose points (resp. projected-points) object is absent serializes
with `points` (resp. `projected_points`) equal to `none` — never 0. -/
theorem matchup_teams_shape (week_obj : PyVal) :
    (serialize_week_matchups week_obj).2 =
      (_matchups_list week_obj).map _serialize_one_matchup ∧
    (∀ m : PyVal, (_serialize_one_matchup m).teams.length =
      (_extract_matchup_teams m).length) ∧
    (∀ t : PyVal, getattrD t "team_points" = PyVal.none →
      (_serialize_matchup_team t).points = Option.none) ∧
    (∀ t : PyVal, getattrD t "team_projected_points" = PyVal.none →
      (_serialize_matchup_team t).projected_points = Option.none) := by
  refine ⟨serialize_week_matchups_snd week_obj, fun m => ?_, fun t h => ?_, fun t h => ?_⟩
  · unfold _serialize_one_matchup
    simp
  · unfold _serialize_matchup_team
    simp [h, pyTruthy]
  · unfold _serialize_matchup_team
    simp [h, pyTruthy]

/-- Witness for C8: a wrapped two-team matchup serializes two team entries,
and a team with no points objects serializes null points. -/
theorem matchup_teams_shape_witness :
    ((_serialize_one_matchup (PyVal.obj [("teams",
        PyVal.obj [("team", PyVal.list [PyVal.obj [], PyVal.obj []])])])).teams.length =
      (_extract_matchup_teams (PyVal.obj [("teams",
        PyVal.obj [("team", PyVal.list [PyVal.obj [], PyVal.obj []])])])).length ∧
     (_extract_matchup_teams (PyVal.obj [("teams",
        PyVal.obj [("team", PyVal.list [PyVal.obj [], PyVal.obj []])])])).length = 2) ∧
    (getattrD (PyVal.obj []) "team_points" = PyVal.none ∧
     (_serialize_matchup_team (PyVal.obj [])).points = Option.none) ∧
    (getattrD (PyVal.obj []) "team_projected_points" = PyVal.none ∧
     (_serialize_matchup_team (PyVal.obj [])).projected_points = Option.none) :=
  ⟨⟨(matchup_teams_shape PyVal.none).2.1 _, rfl⟩,
   ⟨rfl, (matchup_teams_shape PyVal.none).2.2.1 (PyVal.obj []) rfl⟩,
   ⟨rfl, (matchup_teams_shape PyVal.none).2.2.2 (PyVal.obj []) rfl⟩⟩

theorem foldl_syncWeek_empty (env : Env) (lk : String) (lo : PyVal) :
    ∀ (ws : List Int) (db : DB),
      (∀ wn ∈ ws, ∀ wobj, _get_week env lo wn = some wobj →
        (serialize_week_matchups wobj).2 = []) →
      ws.foldl (fun db wn => syncWeek env lk lo db wn) db = db
  | [], _, _ => rfl
  | wn :: rest, db, h => by
    rw [List.foldl_cons]
    have hhd : syncWeek env lk lo db wn = db := by
      unfold syncWeek
      cases hg : _get_week env lo wn with
      | none => rfl
      | some wobj =>
        have he := h wn (by simp) wobj hg
        simp [he]
    rw [hhd]
    exact foldl_syncWeek_empty env lk lo rest db
      (fun w hw wobj hg => h w (by simp [hw]) wobj hg)

/-- Claim C10 (implicit): when every fetched week of a league's window
serializes to an empty matchup list (or the week cannot be fetched), the
per-league matchup block performs no matchup upsert at all, leaving any
previously stored Matchup rows for that league untouched.  `matchupLeague`
is the week-window block shared verbatim by the periodic `sync_user`
(sync.py lines 163-195) and `import_single_league` (sync.py lines 397-425),
so the statement covers both call sites. -/
theorem matchup_empty_keeps_state (env : Env) (lk : String) (lo : PyVal) (db : DB)
    (h : ∀ wn ∈ weeksToSync (_safe_int lo "current_week" 0), ∀ wobj,
      _get_week env lo wn = some wobj → (serialize_week_matchups wobj).2 = []) :
    (matchupLeague env lk lo db).1 = db := by
  unfold matchupLeague
  by_cases hcw : _safe_int lo "current_week" 0 ≤ 0
  · rw [if_pos hcw]
  · rw [if_neg hcw]
    exact foldl_syncWeek_empty env lk lo _ db h

/-- Witness for C10: the scoreboard returns a week object with no matchups;
a previously stored row for ("L", 3) survives untouched. -/
theorem matchup_empty_keeps_state_witness :
    (matchupLeague
      ⟨fun _ _ => .error (), fun _ => .error (), fun _ => .error (),
       fun _ _ => .ok (some (PyVal.obj [])), fun _ => .error (), fun _ => .error (),
       Option.none, fun _ => true, fun _ => true, fun _ => true,
       fun _ _ => true, fun _ => true, true, true⟩
      "L" (PyVal.obj [("current_week", PyVal.int 3)])
      ⟨[], [], [], [], [(("L", 3), [_serialize_one_matchup PyVal.none])], []⟩).1 =
    ⟨[], [], [], [], [(("L", 3), [_serialize_one_matchup PyVal.none])], []⟩ :=
  matchup_empty_keeps_state _ "L" (PyVal.obj [("current_week", PyVal.int 3)]) _
    (by
      intro wn _ wobj hg
      rw [show _get_week
          ⟨fun _ _ => .error (), fun _ => .error (), fun _ => .error (),
           fun _ _ => .ok (some (PyVal.obj [])), fun _ => .error (), fun _ => .error (),
           Option.none, fun _ => true, fun _ => true, fun _ => true,
           fun _ _ => true, fun _ => true, true, true⟩
          (PyVal.obj [("current_week", PyVal.int 3)]) wn = some (PyVal.obj [])
          from rfl] at hg
      cases hg
      rfl)

/-! ## Standings-step lemmas (claim C6) -/

theorem standingsStep_cons (env : Env) (p : PyVal × String)
    (rest : List (PyVal × String)) (db : DB) :
    standingsStep env (p :: rest) db =
      standingsStep env rest (standingsLeague env (_league_key_attr p.1) p.1 db) := by
  unfold standingsStep
  rw [List.foldl_cons]

theorem standingsLeague_error (env : Env) (lk : String) (lo : PyVal) (db : DB)
    (h : env.standingsCall lo = .error ()) :
    standingsLeague env lk lo db = db := by
  unfold standingsLeague
  rw [h]

theorem standingsLeague_lookup_ne (env : Env) (lk : String) (lo : PyVal)
    (db : DB) (k : String) (h : lk ≠ k) :
    lookupA (standingsLeague env lk lo db).standings k =
      lookupA db.standings k := by
  unfold standingsLeague
  cases env.standingsCall lo with
  | error e => rfl
  | ok objs =>
    by_cases ho : env.standingsOk lk
    · simp [ho, upsert_yahoo_standings, lookupA_upsertBy_ne _ _ _ _ _ (Ne.symm h)]
    · simp [ho]

theorem standingsLeague_lookup_self (env : Env) (k : String) (lo : PyVal)
    (db : DB) (objs : Option (List PyVal))
    (hc : env.standingsCall lo = .ok objs) (hok : env.standingsOk k = true) :
    lookupA (standingsLeague env k lo db).standings k =
      some (serialize_standings objs) := by
  unfold standingsLeague
  rw [hc]
  simp only [hok, if_true, upsert_yahoo_standings]
  rw [lookupA_upsertBy_self]
  cases lookupA db.standings k <;> rfl

theorem standingsStep_failed_unchanged (env : Env) (k : String) :
    ∀ (active : List (PyVal × String)) (db : DB),
      (∀ p ∈ active, _league_key_attr p.1 = k →
        env.standingsCall p.1 = .error ()) →
      lookupA (standingsStep env active db).standings k =
        lookupA db.standings k
  | [], _, _ => rfl
  | p :: rest, db, h => by
    rw [standingsStep_cons,
        standingsStep_failed_unchanged env k rest _
          (fun q hq => h q (List.mem_cons_of_mem _ hq))]
    by_cases hk : _league_key_attr p.1 = k
    · rw [standingsLeague_error env _ _ _ (h p (List.mem_cons_self _ _) hk)]
    · rw [standingsLeague_lookup_ne env _ _ _ _ hk]

theorem standingsStep_other_keys (env : Env) (k : String) :
    ∀ (post : List (PyVal × String)) (db : DB),
      (∀ p ∈ post, _league_key_attr p.1 ≠ k) →
      lookupA (standingsStep env post db).standings k =
        lookupA db.standings k
  | [], _, _ => rfl
  | p :: rest, db, h => by
    rw [standingsStep_cons,
        standingsStep_other_keys env k rest _
          (fun q hq => h q (List.mem_cons_of_mem _ hq)),
        standingsLeague_lookup_ne env _ _ _ _ (h p (List.mem_cons_self _ _))]

theorem standingsStep_append (env : Env) (l1 l2 : List (PyVal × String)) (db : DB) :
    standingsStep env (l1 ++ l2) db = standingsStep env l2 (standingsStep env l1 db) := by
  unfold standingsStep
  rw [List.foldl_append]

/-- Claim C6: in one standings pass over the active leagues, a league whose
external standings call fails keeps its stored Standings row exactly as it
was (the upsert is atomic: no partial write), while any other active league
whose call succeeds (and whose key is not repeated later in the pass) has
its row replaced by the freshly serialized standings. -/
theorem standings_failure_isolated (env : Env) (active : List (PyVal × String))
    (db : DB) :
    (∀ k : String,
      (∀ p ∈ active, _league_key_attr p.1 = k →
        env.standingsCall p.1 = .error ()) →
      lookupA (standingsStep env active db).standings k =
        lookupA db.standings k) ∧
    (∀ (pre post : List (PyVal × String)) (lo : PyVal) (gc : String)
        (objs : Option (List PyVal)),
      active = pre ++ (lo, gc) :: post →
      env.standingsCall lo = .ok objs →
      env.standingsOk (_league_key_attr lo) = true →
      (∀ p ∈ post, _league_key_attr p.1 ≠ _league_key_attr lo) →
      lookupA (standingsStep env active db).standings (_league_key_attr lo) =
        some (serialize_standings objs)) := by
  constructor
  · intro k h
    exact standingsStep_failed_unchanged env k active db h
  · intro pre post lo gc objs hact hc hok hpost
    subst hact
    rw [standingsStep_append, standingsStep_cons,
        standingsStep_other_keys env _ post _ hpost,
        standingsLeague_lookup_self env _ lo _ objs hc hok]

/-- Concrete environment for the C6 witness: the call for league L1 fails,
every other standings call succeeds with an empty team list. -/
def c6Env : Env :=
  ⟨fun _ _ => .error (), fun _ => .error (),
   fun lo => if _league_key_attr lo = "L1" then .error () else .ok (some []),
   fun _ _ => .error (), fun _ => .error (), fun _ => .error (),
   Option.none, fun _ => true, fun _ => true, fun _ => true,
   fun _ _ => true, fun _ => true, true, true⟩

def c6L1 : PyVal := PyVal.obj [("league_key", PyVal.str "L1")]

def c6L2 : PyVal := PyVal.obj [("league_key", PyVal.str "L2")]

def c6DB : DB :=
  ⟨[], [], [], [("L1", [_serialize_standing_team PyVal.none]), ("L2", [])], [], []⟩

/-- Witness for C6: with L1 failing and L2 succeeding in the same pass, L1
keeps its stored row and L2 is replaced. -/
theorem standings_failure_isolated_witness :
    lookupA (standingsStep c6Env [(c6L1, "nfl"), (c6L2, "nfl")] c6DB).standings
        "L1" = some [_serialize_standing_team PyVal.none] ∧
    lookupA (standingsStep c6Env [(c6L1, "nfl"), (c6L2, "nfl")] c6DB).standings
        "L2" = some (serialize_standings (some [])) := by
  constructor
  · have h := (standings_failure_isolated c6Env [(c6L1, "nfl"), (c6L2, "nfl")] c6DB).1
      "L1" (by
        intro p hp hk
        rcases List.mem_cons.mp hp with rfl | hp2
        · rfl
        · rcases List.mem_cons.mp hp2 with rfl | hp3
          · rw [show _league_key_attr c6L2 = "L2" from rfl] at hk
            exact absurd hk (by decide)
          · exact absurd hp3 (List.not_mem_nil p))
    rw [h]
    rfl
  · have h := (standings_failure_isolated c6Env [(c6L1, "nfl"), (c6L2, "nfl")] c6DB).2
      [(c6L1, "nfl")] [] c6L2 "nfl" (some []) rfl rfl rfl
      (fun p hp => absurd hp (List.not_mem_nil p))
    rw [show _league_key_attr c6L2 = "L2" from rfl] at h
    exact h

/-! ## Watermark lemmas (claim C7) -/

theorem foldl_users_eq {γ : Type} (f : DB → γ → DB)
    (hf : ∀ db x, (f db x).users = db.users) :
    ∀ (l : List γ) (db : DB), (l.foldl f db).users = db.users
  | [], _ => rfl
  | x :: rest, db => by
    rw [List.foldl_cons, foldl_users_eq f hf rest _, hf]

theorem standingsLeague_users (env : Env) (lk : String) (lo : PyVal) (db : DB) :
    (standingsLeague env lk lo db).users = db.users := by
  unfold standingsLeague
  cases env.standingsCall lo with
  | error e => rfl
  | ok objs => by_cases h : env.standingsOk lk <;> simp [h, upsert_yahoo_standings]

theorem standingsStep_users (env : Env) (active : List (PyVal × String)) (db : DB) :
    (standingsStep env active db).users = db.users := by
  unfold standingsStep
  exact foldl_users_eq _
    (fun db p => standingsLeague_users env (_league_key_attr p.1) p.1 db) active db

theorem syncWeek_users (env : Env) (lk : String) (lo : PyVal) (db : DB) (wn : Int) :
    (syncWeek env lk lo db wn).users = db.users := by
  unfold syncWeek
  cases _get_week env lo wn with
  | none => rfl
  | some wobj =>
    by_cases he : (serialize_week_matchups wobj).2.isEmpty <;>
      by_cases ho : env.matchupsOk lk
        (if (serialize_week_matchups wobj).1 ≤ 0 then wn
         else (serialize_week_matchups wobj).1) <;>
      simp [he, ho, upsert_yahoo_matchups]

theorem matchupLeague_users (env : Env) (lk : String) (lo : PyVal) (db : DB) :
    (matchupLeague env lk lo db).1.users = db.users := by
  unfold matchupLeague
  by_cases h : _safe_int lo "current_week" 0 ≤ 0
  · rw [if_pos h]
  · rw [if_neg h]
    exact foldl_users_eq _ (fun db wn => syncWeek_users env lk lo db wn) _ db

theorem matchupStep_users (env : Env) (active : List (PyVal × String)) (db : DB) :
    (matchupStep env active db).users = db.users := by
  unfold matchupStep
  exact foldl_users_eq _
    (fun db p => matchupLeague_users env (_league_key_attr p.1) p.1 db) active db

theorem rosterTeam_users (env : Env) (lk : String) (db : DB) (t : PyVal) :
    (rosterTeam env lk db t).users = db.users := by
  unfold rosterTeam
  cases env.rosterCall t with
  | error e => rfl
  | ok robj =>
    by_cases h : env.rosterOk (_team_key_attr t) <;>
      simp [h, upsert_yahoo_roster]

theorem rosterLeague_users (env : Env) (lk : String) (lo : PyVal) (db : DB) :
    (rosterLeague env lk lo db).users = db.users := by
  unfold rosterLeague
  exact foldl_users_eq _ (rosterTeam_users env lk) _ db

theorem rosterStep_users (env : Env) (active : List (PyVal × String)) (db : DB) :
    (rosterStep env active db).users = db.users := by
  unfold rosterStep
  exact foldl_users_eq _
    (fun db p => rosterLeague_users env (_league_key_attr p.1) p.1 db) active db

theorem upsertLeaguesStep_all_ok (env : Env) (guid : String) (cy : Int)
    (hL : ∀ k, env.leagueOk k = true) (hUL : ∀ k, env.userLeagueOk k = true) :
    ∀ (L : List (PyVal × String)) (db : DB),
      (upsertLeaguesStep env guid cy L db).2 = true ∧
      (upsertLeaguesStep env guid cy L db).1.users = db.users
  | [], _ => ⟨rfl, rfl⟩
  | (lo, gc) :: rest, db => by
    unfold upsertLeaguesStep
    simp only [hL, hUL, if_true]
    exact upsertLeaguesStep_all_ok env guid cy hL hUL rest _

theorem tokenStep_all_ok (env : Env) (guid : String) (sub : Option String)
    (tok : String) (db : DB) (hU : env.userOk = true) :
    (tokenStep env guid sub tok db).2 = true ∧
    ((lookupA db.users guid).isSome = true →
      (lookupA (tokenStep env guid sub tok db).1.users guid).isSome = true) := by
  unfold tokenStep
  split
  · exact ⟨rfl, fun h => h⟩
  · split
    · simp only [hU, if_true]
      refine ⟨trivial, fun _ => ?_⟩
      unfold upsert_yahoo_user
      simp [lookupA_upsertBy_self]
    · exact ⟨rfl, fun h => h⟩

/-- Claim C7 (amended): the watermark write runs at the end of every pass in
which no database write outside a `try` block fails — failures of discovery
combinations, standings, matchups and rosters are all caught, and the
watermark is still recorded.  (The original claim also promised the
watermark after a failed league upsert; those upserts are not inside a
`try`, so such a failure aborts the pass before the watermark — see the
counterexample.)  Hypotheses: the league, membership and token upserts and
the sync-time update succeed, and the principal has a `yahoo_users` row. -/
theorem sync_watermark_on_sync_failures (env : Env) (guid : String)
    (sub : Option String) (tok : String) (cy now : Int) (db : DB)
    (hL : ∀ k, env.leagueOk k = true) (hUL : ∀ k, env.userLeagueOk k = true)
    (hU : env.userOk = true) (hS : env.syncTimeOk = true)
    (hrow : (lookupA db.users guid).isSome = true) :
    (sync_user env guid sub tok cy now db).2 = true ∧
    (lookupA (sync_user env guid sub tok cy now db).1.users guid).map
        UserRow.last_sync = some (some now) := by
  obtain ⟨hflag, husers⟩ :=
    upsertLeaguesStep_all_ok env guid cy hL hUL (discoverStep env cy) db
  obtain ⟨htok, hpres⟩ := tokenStep_all_ok env guid sub tok
    (rosterStep env
      ((discoverStep env cy).filter
        (fun p => !(serialize_league p.1 p.2 cy).is_finished))
      (matchupStep env
        ((discoverStep env cy).filter
          (fun p => !(serialize_league p.1 p.2 cy).is_finished))
        (standingsStep env
          ((discoverStep env cy).filter
            (fun p => !(serialize_league p.1 p.2 cy).is_finished))
          (upsertLeaguesStep env guid cy (discoverStep env cy) db).1))) hU
  have hrow4 : (lookupA
      (rosterStep env
        ((discoverStep env cy).filter
          (fun p => !(serialize_league p.1 p.2 cy).is_finished))
        (matchupStep env
          ((discoverStep env cy).filter
            (fun p => !(serialize_league p.1 p.2 cy).is_finished))
          (standingsStep env
            ((discoverStep env cy).filter
              (fun p => !(serialize_league p.1 p.2 cy).is_finished))
            (upsertLeaguesStep env guid cy (discoverStep env cy) db).1))).users
      guid).isSome = true := by
    rw [rosterStep_users, matchupStep_users, standingsStep_users, husers]
    exact hrow
  have hpres2 := hpres hrow4
  unfold sync_user
  simp only [hflag, htok, hS, eq_self_iff_true, if_true]
  refine ⟨trivial, ?_⟩
  unfold update_user_sync_time
  simp only
  rw [lookupA_updateA_self]
  rcases hfin : lookupA (tokenStep env guid sub tok
      (rosterStep env
        ((discoverStep env cy).filter
          (fun p => !(serialize_league p.1 p.2 cy).is_finished))
        (matchupStep env
          ((discoverStep env cy).filter
            (fun p => !(serialize_league p.1 p.2 cy).is_finished))
          (standingsStep env
            ((discoverStep env cy).filter
              (fun p => !(serialize_league p.1 p.2 cy).is_finished))
            (upsertLeaguesStep env guid cy (discoverStep env cy) db).1)))).1.users
      guid with _ | u
  · rw [hfin] at hpres2
    exact absurd hpres2 (by simp)
  · rfl

/-- Environment for the C7 witness: every external Yahoo call fails, every
database call succeeds. -/
def wEnv7 : Env :=
  ⟨fun _ _ => .error (), fun _ => .error (), fun _ => .error (),
   fun _ _ => .error (), fun _ => .error (), fun _ => .error (),
   Option.none, fun _ => true, fun _ => true, fun _ => true,
   fun _ _ => true, fun _ => true, true, true⟩

def wDB7 : DB := ⟨[("u", ⟨Option.none, "t", Option.none⟩)], [], [], [], [], []⟩

/-- Witness for C7 (amended): with all eight discovery combinations failing
(and no other external data), the pass still completes and stamps the
watermark. -/
theorem sync_watermark_on_sync_failures_witness :
    ((∀ k : String, wEnv7.leagueOk k = true) ∧
     (∀ k : String, wEnv7.userLeagueOk k = true) ∧
     wEnv7.userOk = true ∧ wEnv7.syncTimeOk = true ∧
     (lookupA wDB7.users "u").isSome = true) ∧
    ((sync_user wEnv7 "u" Option.none "t" 2026 5 wDB7).2 = true ∧
     (lookupA (sync_user wEnv7 "u" Option.none "t" 2026 5 wDB7).1.users "u").map
       UserRow.last_sync = some (some 5)) :=
  ⟨⟨fun _ => rfl, fun _ => rfl, rfl, rfl, rfl⟩,
   sync_watermark_on_sync_failures wEnv7 "u" Option.none "t" 2026 5 wDB7
     (fun _ => rfl) (fun _ => rfl) rfl rfl rfl⟩

/-- Environment for the C7 counterexample: discovery finds one league and
the league upsert (a database write outside any `try`) fails. -/
def cEnv7 : Env :=
  ⟨fun gc s => if gc = "nfl" ∧ s = 2026
    then .ok [PyVal.obj [("league_key", PyVal.str "L1"), ("season", PyVal.int 2026)]]
    else .error (),
   fun _ => .error (), fun _ => .error (), fun _ _ => .error (),
   fun _ => .error (), fun _ => .error (), Option.none,
   fun _ => false, fun _ => true, fun _ => true,
   fun _ _ => true, fun _ => true, true, true⟩

def cDB7 : DB := ⟨[("u", ⟨Option.none, "t", Option.none⟩)], [], [], [], [], []⟩

/-- Counterexample for C7 as stated: a pass in which the league-upsert
sub-step fails aborts before the watermark — `last_sync` stays `None`,
contradicting "the watermark update is performed in every execution, even
one in which league upserts failed". -/
theorem sync_watermark_claim_false :
    (sync_user cEnv7 "u" Option.none "t" 2026 5 cDB7).2 = false ∧
    (lookupA (sync_user cEnv7 "u" Option.none "t" 2026 5 cDB7).1.users "u").map
      UserRow.last_sync = some Option.none := by
  constructor <;> rfl
